import Mathlib

/-!
Verification of `dyn_object` (`src/lib.rs`): a nullable, boxed, type-erased
handle `Object(Option<Box<dyn DynObject>>)` with a blanket `DynObject`
implementation (virtual `dyn_clone` / `dyn_eq`) and an `AsObject`
erasure/recovery protocol whose load-bearing branch is the runtime
`TypeId` comparison against the handle type `Object` itself.

The embedding replaces Rust's open universe of concrete storable types by a
closed but representative universe `Ty`: `i32`-like integers, strings, a
distinct newtype with the same representation as the integers (distinct
`TypeId`, overlapping payload), the private `UnnameableUnequal` sentinel of
`Object::unnameable`, and the handle type `Object` itself.  Payloads
(`Box<dyn DynObject>` values) are `DynValue`s carrying their concrete type
tag; a nested handle payload (`vobj`) is representable so that the
"no handle nests inside another handle" invariant is a theorem rather than
a consequence of the model's shape.  Boxed values are owned and never
shared, so Rust's deep `clone` is the identity on these pure values.
-/

set_option autoImplicit false

namespace DynObjectLib

/-- The `TypeId`s of the concrete types in the universe.  `myInt` is a
newtype around an integer: same representation as `int`, distinct runtime
type identity.  `object` is the handle type `Object` itself. -/
inductive Ty where
  | int
  | str
  | myInt
  | unnameable
  | object
  deriving DecidableEq

/-- A type-erased stored value (`Box<dyn DynObject>` contents), tagged with
its concrete type.  `vobj` is a (never actually constructed by the API)
handle stored as a payload: it carries the nested handle's
`Option<Box<dyn DynObject>>` field. -/
inductive DynValue where
  | vint (n : Int)
  | vstr (s : String)
  | vmyInt (n : Int)
  | vunnameable
  | vobj (o : Option DynValue)

/-- `pub struct Object(Option<Box<dyn DynObject>>);` -/
structure Object where
  val : Option DynValue

/-- The Lean type denoted by each concrete type of the universe
(the `Self` type of the corresponding Rust impl). -/
@[reducible] def Ty.denote : Ty → Type
  | .int => Int
  | .str => String
  | .myInt => Int
  | .unnameable => Unit
  | .object => Object

/-- The runtime type identity (`TypeId`) of a stored value. -/
def DynValue.tyOf : DynValue → Ty
  | .vint _ => .int
  | .vstr _ => .str
  | .vmyInt _ => .myInt
  | .vunnameable => .unnameable
  | .vobj _ => .object

/-- `downcast_ref::<T>` / `Box::downcast::<T>` on a `dyn DynObject` value:
succeeds exactly when the requested `TypeId` equals the stored value's
runtime type, yielding the typed value. -/
def downcast : (t : Ty) → DynValue → Option t.denote
  | .int, .vint n => some n
  | .str, .vstr s => some s
  | .myInt, .vmyInt n => some n
  | .unnameable, .vunnameable => some ()
  | .object, .vobj o => some ⟨o⟩
  | _, _ => none

/-- `dyn_eq` from the blanket `impl<T> DynObject for T`:
`self.dyn_eq(other)` downcasts `other` to `Self`'s concrete type and, on
success, compares with `Self`'s own `PartialEq` in the source's argument
order (`some == self`, i.e. casted-other against self); a failed downcast
is `false`.  Per concrete type this is: ordinary equality for the integer,
string and newtype cases; constantly `false` for the `UnnameableUnequal`
sentinel (its `PartialEq::eq` returns `false`); and for a stored handle the
derived `PartialEq` of `Object`, which compares the two inner options and
delegates `Some`/`Some` back to `dyn_eq`. -/
def dyn_eq : DynValue → DynValue → Bool
  | .vint a, .vint b => decide (b = a)
  | .vstr a, .vstr b => decide (b = a)
  | .vmyInt a, .vmyInt b => decide (b = a)
  | .vunnameable, .vunnameable => false
  | .vobj none, .vobj none => true
  | .vobj (some x), .vobj (some y) => dyn_eq y x
  | .vobj _, .vobj _ => false
  | _, _ => false
  termination_by x y => sizeOf x + sizeOf y
  decreasing_by simp; omega

/-- The derived `PartialEq for Object` (the `==` of the claims): compares
the two `Option<Box<dyn DynObject>>` fields; `Some`/`Some` goes through
`impl PartialEq for dyn DynObject`, i.e. `a.dyn_eq(b)`. -/
def beqObject (a b : Object) : Bool :=
  match a.val, b.val with
  | none, none => true
  | some x, some y => dyn_eq x y
  | _, _ => false

/-- Each concrete type's own `PartialEq::eq` on two stored values of that
same type (`false` when the tags differ; that case is never relevant).
For the sentinel this is constantly `false`; for a stored handle it is the
derived `PartialEq` of `Object`. -/
def concreteEq : DynValue → DynValue → Bool
  | .vint a, .vint b => decide (a = b)
  | .vstr a, .vstr b => decide (a = b)
  | .vmyInt a, .vmyInt b => decide (a = b)
  | .vunnameable, .vunnameable => false
  | .vobj a, .vobj b => beqObject ⟨a⟩ ⟨b⟩
  | _, _ => false

/-- `Box::new(self) as Box<dyn DynObject>` for a value of a concrete
(non-handle) type; for the handle type it records the nested handle's
field, tagged `object`. -/
def toDyn : (t : Ty) → t.denote → DynValue
  | .int, n => .vint n
  | .str, s => .vstr s
  | .myInt, n => .vmyInt n
  | .unnameable, _ => .vunnameable
  | .object, o => .vobj o.val

/-- `<dyn Any>::downcast_ref::<T>` applied to a value whose concrete type
is `Object` (the `obj as &dyn Any` casts in the `AsObject` blanket impl):
succeeds iff the requested type is `Object`. -/
def anyDowncastObj : (t : Ty) → Object → Option t.denote
  | .object, o => some o
  | _, _ => none

/-- `<dyn Any>::downcast::<Object>` applied to a value of static type `T`
(the `Box::new(self) as Box<dyn Any>` casts): succeeds iff `T` is
`Object`. -/
def anyToObject : (t : Ty) → t.denote → Option Object
  | .object, o => some o
  | _, _ => none

/-- `AsObject::into_object` from the blanket impl: if
`TypeId::of::<T>() == TypeId::of::<Object>()` the value is returned
unchanged (identity short-circuit, no boxing); otherwise the value is
boxed and stored: `Object(Some(Box::new(self)))`. -/
def into_object : (t : Ty) → t.denote → Object
  | .object, o => o
  | .int, n => ⟨some (.vint n)⟩
  | .str, s => ⟨some (.vstr s)⟩
  | .myInt, n => ⟨some (.vmyInt n)⟩
  | .unnameable, _ => ⟨some .vunnameable⟩

/-- `AsObject::cloned` from the blanket impl: in the `T == Object` branch,
`None` for an empty handle, otherwise a clone of the whole handle (deep
copy; identity on these pure values); otherwise
`obj.0.as_ref().and_then(|x| x.downcast_ref::<T>().cloned())`. -/
def cloned : (t : Ty) → Object → Option t.denote
  | .object, obj =>
    match obj.val with
    | none => none
    | some _ => some obj
  | .int, obj => obj.val.bind (downcast .int)
  | .str, obj => obj.val.bind (downcast .str)
  | .myInt, obj => obj.val.bind (downcast .myInt)
  | .unnameable, obj => obj.val.bind (downcast .unnameable)

/-- `AsObject::get_ref` from the blanket impl (an `Option<&T>`, modelled by
the referenced value): same case split as `cloned`. -/
def get_ref : (t : Ty) → Object → Option t.denote
  | .object, obj =>
    match obj.val with
    | none => none
    | some _ => some obj
  | .int, obj => obj.val.bind (downcast .int)
  | .str, obj => obj.val.bind (downcast .str)
  | .myInt, obj => obj.val.bind (downcast .myInt)
  | .unnameable, obj => obj.val.bind (downcast .unnameable)

/-- `AsObject::get_mut` from the blanket impl (an `Option<&mut T>`,
modelled by the referenced value): same case split as `cloned`. -/
def get_mut : (t : Ty) → Object → Option t.denote
  | .object, obj =>
    match obj.val with
    | none => none
    | some _ => some obj
  | .int, obj => obj.val.bind (downcast .int)
  | .str, obj => obj.val.bind (downcast .str)
  | .myInt, obj => obj.val.bind (downcast .myInt)
  | .unnameable, obj => obj.val.bind (downcast .unnameable)

/-- `AsObject::from_object` from the blanket impl (consumes the handle):
in the `T == Object` branch, `None` for an empty handle, otherwise the
whole handle moved out; otherwise
`obj.0.and_then(|x| x.downcast().map(|x| *x).ok())`. -/
def from_object : (t : Ty) → Object → Option t.denote
  | .object, obj =>
    match obj.val with
    | none => none
    | some _ => some obj
  | .int, obj => obj.val.bind (downcast .int)
  | .str, obj => obj.val.bind (downcast .str)
  | .myInt, obj => obj.val.bind (downcast .myInt)
  | .unnameable, obj => obj.val.bind (downcast .unnameable)

/-- `AsObject::as_dyn_inner` from the blanket impl: for the handle type it
reaches through to the inner boxed value
(`...downcast_ref::<Object>().unwrap().0.as_ref()`); for any other type the
value itself already is a `dyn DynObject`, so `Some(self)`. -/
def as_dyn_inner : (t : Ty) → t.denote → Option DynValue
  | .object, o => o.val
  | .int, n => some (.vint n)
  | .str, s => some (.vstr s)
  | .myInt, n => some (.vmyInt n)
  | .unnameable, _ => some .vunnameable

/-- Result of a computation that may `panic!` (the `.unwrap()` sites in the
`AsObject` blanket impl): either a value or a panic. -/
inductive PRes (α : Type) where
  | ok (a : α)
  | panicked

/-- `AsObject::cloned` with every panic site explicit: the `TypeId` branch
is the decidable test `t = .object`, and the `.unwrap()` on the
`dyn Any` downcast panics when that downcast fails. -/
def clonedP (t : Ty) (obj : Object) : PRes (Option t.denote) :=
  if t = .object then
    match obj.val with
    | none => .ok none
    | some _ =>
      match anyDowncastObj t obj with
      | none => .panicked
      | some x => .ok (some x)
  else
    .ok (obj.val.bind (downcast t))

/-- `AsObject::get_ref` with every panic site explicit. -/
def get_refP (t : Ty) (obj : Object) : PRes (Option t.denote) :=
  if t = .object then
    match obj.val with
    | none => .ok none
    | some _ =>
      match anyDowncastObj t obj with
      | none => .panicked
      | some x => .ok (some x)
  else
    .ok (obj.val.bind (downcast t))

/-- `AsObject::get_mut` with every panic site explicit. -/
def get_mutP (t : Ty) (obj : Object) : PRes (Option t.denote) :=
  if t = .object then
    match obj.val with
    | none => .ok none
    | some _ =>
      match anyDowncastObj t obj with
      | none => .panicked
      | some x => .ok (some x)
  else
    .ok (obj.val.bind (downcast t))

/-- `AsObject::from_object` with every panic site explicit. -/
def from_objectP (t : Ty) (obj : Object) : PRes (Option t.denote) :=
  if t = .object then
    match obj.val with
    | none => .ok none
    | some _ =>
      match anyDowncastObj t obj with
      | none => .panicked
      | some x => .ok (some x)
  else
    .ok (obj.val.bind (downcast t))

/-- `AsObject::into_object` with every panic site explicit: the
`T == Object` branch downcasts `Box::new(self) as Box<dyn Any>` back to
`Object` and unwraps. -/
def into_objectP (t : Ty) (v : t.denote) : PRes Object :=
  if t = .object then
    match anyToObject t v with
    | none => .panicked
    | some o => .ok o
  else
    .ok ⟨some (toDyn t v)⟩

/-- `AsObject::as_dyn_inner` with every panic site explicit. -/
def as_dyn_innerP (t : Ty) (v : t.denote) : PRes (Option DynValue) :=
  if t = .object then
    match anyToObject t v with
    | none => .panicked
    | some o => .ok o.val
  else
    .ok (some (toDyn t v))

/-- `Object::NONE`. -/
def Object.NONE : Object := ⟨none⟩

/-- `Object::unnameable()`: a handle around the private
`UnnameableUnequal` sentinel, whose `PartialEq::eq` returns `false`. -/
def Object.unnameable : Object := ⟨some .vunnameable⟩

/-- `Object::new::<T>(v)`, i.e. `AsObject::into_object(v)`. -/
def Object.new (t : Ty) (v : t.denote) : Object :=
  into_object t v

/-- `Object::is_some`. -/
def Object.is_some (o : Object) : Bool :=
  o.val.isSome

/-- `Object::is_none`. -/
def Object.is_none (o : Object) : Bool :=
  o.val.isNone

/-- `Object::cloned::<T>`. -/
def Object.cloned (t : Ty) (o : Object) : Option t.denote :=
  DynObjectLib.cloned t o

/-- `Object::get_ref::<T>`. -/
def Object.get_ref (t : Ty) (o : Object) : Option t.denote :=
  DynObjectLib.get_ref t o

/-- `Object::get_mut::<T>`. -/
def Object.get_mut (t : Ty) (o : Object) : Option t.denote :=
  DynObjectLib.get_mut t o

/-- `Object::clear` (the resulting state of the handle). -/
def Object.clear (_ : Object) : Object := ⟨none⟩

/-- `Object::take::<T>`: `mem::take(self)` leaves the `Default` handle
`Object(None)` behind and the removed handle is consumed by
`AsObject::from_object`.  Returns (result, state of the handle after). -/
def Object.take (t : Ty) (o : Object) : Option t.denote × Object :=
  (from_object t o, ⟨none⟩)

/-- `Object::set::<T>`: `*self = AsObject::into_object(v)`; the previous
contents are dropped.  Returns the new state of the handle. -/
def Object.set (t : Ty) (_ : Object) (v : t.denote) : Object :=
  into_object t v

/-- `Object::replace::<A, B>`: `take::<B>` then `set::<A>`.
Returns (result, state of the handle after). -/
def Object.replace (a b : Ty) (o : Object) (v : a.denote) : Option b.denote × Object :=
  let taken := Object.take b o
  (taken.1, Object.set a taken.2 v)

/-- `Object::or::<T>`. -/
def Object.or (t : Ty) (o : Object) (item : t.denote) : Object :=
  if o.is_none then Object.new t item else o

/-- `Object::or_else::<T>` with the producer as a plain function. -/
def Object.or_else (t : Ty) (o : Object) (item : Unit → t.denote) : Object :=
  if o.is_none then Object.new t (item ()) else o

/-- `Object::or_else::<T>` with the producer's effect made observable: the
producer threads a state of type `σ` (e.g. an invocation counter), and the
state is transformed exactly where the source calls `item()`. -/
def Object.or_elseS {σ : Type} (t : Ty) (o : Object) (s : σ)
    (item : σ → t.denote × σ) : Object × σ :=
  if o.is_none then
    let r := item s
    (Object.new t r.1, r.2)
  else
    (o, s)

/-- `Object::equals::<T>`: pair `self.0` with `other.as_dyn_inner()`;
both-`None` is `true`, `Some`/`Some` is `dyn_eq`, mixed is `false`. -/
def Object.equals (t : Ty) (o : Object) (other : t.denote) : Bool :=
  match o.val, as_dyn_inner t other with
  | none, none => true
  | some a, some b => dyn_eq a b
  | _, _ => false

/-- `Object::equals::<T>` with the panic sites of `as_dyn_inner`
explicit. -/
def equalsP (t : Ty) (o : Object) (other : t.denote) : PRes Bool :=
  match as_dyn_innerP t other with
  | .panicked => .panicked
  | .ok i =>
    .ok (match o.val, i with
      | none, none => true
      | some a, some b => dyn_eq a b
      | _, _ => false)

/-- `Object::take::<T>` with the panic sites of `from_object` explicit. -/
def takeP (t : Ty) (o : Object) : PRes (Option t.denote × Object) :=
  match from_objectP t o with
  | .panicked => .panicked
  | .ok r => .ok (r, ⟨none⟩)

/-- `Object::replace::<A, B>` with the panic sites of its components
explicit. -/
def replaceP (a b : Ty) (o : Object) (v : a.denote) :
    PRes (Option b.denote × Object) :=
  match takeP b o with
  | .panicked => .panicked
  | .ok taken =>
    match into_objectP a v with
    | .panicked => .panicked
    | .ok newState => .ok (taken.1, newState)

/-- `dyn_eq` is symmetric (every concrete equality in the universe is
symmetric, including the sentinel's constantly-`false` one), and it is the
conjunction of the runtime type guard with the concrete type's own
equality. -/
theorem dyn_eq_props : ∀ x y : DynValue,
    dyn_eq x y = dyn_eq y x ∧
    dyn_eq x y = (decide (x.tyOf = y.tyOf) && concreteEq x y)
  | .vint a, .vint b => by
    refine ⟨?_, ?_⟩ <;> simp [dyn_eq, concreteEq, DynValue.tyOf, eq_comm]
  | .vstr a, .vstr b => by
    refine ⟨?_, ?_⟩ <;> simp [dyn_eq, concreteEq, DynValue.tyOf, eq_comm]
  | .vmyInt a, .vmyInt b => by
    refine ⟨?_, ?_⟩ <;> simp [dyn_eq, concreteEq, DynValue.tyOf, eq_comm]
  | .vunnameable, .vunnameable => by
    refine ⟨?_, ?_⟩ <;> simp [dyn_eq, concreteEq, DynValue.tyOf]
  | .vobj none, .vobj none => by
    refine ⟨?_, ?_⟩ <;> simp [dyn_eq, concreteEq, DynValue.tyOf, beqObject]
  | .vobj none, .vobj (some _) => by
    refine ⟨?_, ?_⟩ <;> simp [dyn_eq, concreteEq, DynValue.tyOf, beqObject]
  | .vobj (some _), .vobj none => by
    refine ⟨?_, ?_⟩ <;> simp [dyn_eq, concreteEq, DynValue.tyOf, beqObject]
  | .vobj (some x), .vobj (some y) => by
    have ih := (dyn_eq_props y x).1
    refine ⟨?_, ?_⟩ <;>
      simp [dyn_eq, concreteEq, DynValue.tyOf, beqObject] <;>
      exact ih
  | .vint _, .vstr _ => by
    refine ⟨?_, ?_⟩ <;> simp [dyn_eq, concreteEq, DynValue.tyOf]
  | .vint _, .vmyInt _ => by
    refine ⟨?_, ?_⟩ <;> simp [dyn_eq, concreteEq, DynValue.tyOf]
  | .vint _, .vunnameable => by
    refine ⟨?_, ?_⟩ <;> simp [dyn_eq, concreteEq, DynValue.tyOf]
  | .vint _, .vobj _ => by
    refine ⟨?_, ?_⟩ <;> simp [dyn_eq, concreteEq, DynValue.tyOf]
  | .vstr _, .vint _ => by
    refine ⟨?_, ?_⟩ <;> simp [dyn_eq, concreteEq, DynValue.tyOf]
  | .vstr _, .vmyInt _ => by
    refine ⟨?_, ?_⟩ <;> simp [dyn_eq, concreteEq, DynValue.tyOf]
  | .vstr _, .vunnameable => by
    refine ⟨?_, ?_⟩ <;> simp [dyn_eq, concreteEq, DynValue.tyOf]
  | .vstr _, .vobj _ => by
    refine ⟨?_, ?_⟩ <;> simp [dyn_eq, concreteEq, DynValue.tyOf]
  | .vmyInt _, .vint _ => by
    refine ⟨?_, ?_⟩ <;> simp [dyn_eq, concreteEq, DynValue.tyOf]
  | .vmyInt _, .vstr _ => by
    refine ⟨?_, ?_⟩ <;> simp [dyn_eq, concreteEq, DynValue.tyOf]
  | .vmyInt _, .vunnameable => by
    refine ⟨?_, ?_⟩ <;> simp [dyn_eq, concreteEq, DynValue.tyOf]
  | .vmyInt _, .vobj _ => by
    refine ⟨?_, ?_⟩ <;> simp [dyn_eq, concreteEq, DynValue.tyOf]
  | .vunnameable, .vint _ => by
    refine ⟨?_, ?_⟩ <;> simp [dyn_eq, concreteEq, DynValue.tyOf]
  | .vunnameable, .vstr _ => by
    refine ⟨?_, ?_⟩ <;> simp [dyn_eq, concreteEq, DynValue.tyOf]
  | .vunnameable, .vmyInt _ => by
    refine ⟨?_, ?_⟩ <;> simp [dyn_eq, concreteEq, DynValue.tyOf]
  | .vunnameable, .vobj _ => by
    refine ⟨?_, ?_⟩ <;> simp [dyn_eq, concreteEq, DynValue.tyOf]
  | .vobj _, .vint _ => by
    refine ⟨?_, ?_⟩ <;> simp [dyn_eq, concreteEq, DynValue.tyOf]
  | .vobj _, .vstr _ => by
    refine ⟨?_, ?_⟩ <;> simp [dyn_eq, concreteEq, DynValue.tyOf]
  | .vobj _, .vmyInt _ => by
    refine ⟨?_, ?_⟩ <;> simp [dyn_eq, concreteEq, DynValue.tyOf]
  | .vobj _, .vunnameable => by
    refine ⟨?_, ?_⟩ <;> simp [dyn_eq, concreteEq, DynValue.tyOf]
  termination_by x y => sizeOf x + sizeOf y
  decreasing_by simp; omega

/-- `dyn_eq` is symmetric. -/
theorem dyn_eq_symm (x y : DynValue) : dyn_eq x y = dyn_eq y x :=
  (dyn_eq_props x y).1

/-- `dyn_eq` is the runtime type guard conjoined with the concrete type's
own equality. -/
theorem dyn_eq_char (x y : DynValue) :
    dyn_eq x y = (decide (x.tyOf = y.tyOf) && concreteEq x y) :=
  (dyn_eq_props x y).2

/-- A downcast to a type other than the stored value's runtime type
fails. -/
theorem downcast_ne (t : Ty) (x : DynValue) (h : x.tyOf ≠ t) :
    downcast t x = none := by
  cases t <;> cases x <;> first | rfl | exact absurd rfl h

/-- A downcast to the boxed value's own type recovers the value. -/
theorem downcast_toDyn (t : Ty) (x : t.denote) :
    downcast t (toDyn t x) = some x := by
  cases t <;> rfl

/-- The runtime type of a boxed value is its static type. -/
theorem tyOf_toDyn (t : Ty) (x : t.denote) : (toDyn t x).tyOf = t := by
  cases t <;> rfl

/-- On a non-handle requested type, `cloned` is downcast-and-clone of the
stored payload. -/
theorem cloned_ne_object (t : Ty) (h : t ≠ .object) (o : Object) :
    cloned t o = o.val.bind (downcast t) := by
  cases t <;> first | exact absurd rfl h | rfl

/-- On a non-handle requested type, `from_object` is downcast-and-move of
the stored payload. -/
theorem from_object_ne_object (t : Ty) (h : t ≠ .object) (o : Object) :
    from_object t o = o.val.bind (downcast t) := by
  cases t <;> first | exact absurd rfl h | rfl

/-- C1 — Flatten law: wrapping a wrapped value is the identity
(`Object::new(Object::new(x)) = Object::new(x)` as the very same handle),
`into_object` on a value of static type `Object` returns that value
unchanged rather than boxing it, and for every non-handle type the payload
stored by `Object::new` is never itself a handle, so no handle ever nests
inside another handle. -/
theorem c1_flatten_law (t : Ty) (x : t.denote) (o : Object) :
    Object.new .object (Object.new t x) = Object.new t x ∧
    into_object .object o = o ∧
    (t ≠ .object → ∀ v, (Object.new t x).val = some v → ∀ w, v ≠ .vobj w) := by
  refine ⟨rfl, rfl, ?_⟩
  intro ht v hv w
  cases t
  case object => exact absurd rfl ht
  all_goals (injection hv with h; subst h; nofun)

/-- Witness for C1: the flatten law at `x = 1 : i32`, identity of
`into_object` on a handle, and the concrete payload is not a nested
handle. -/
theorem c1_flatten_law_witness :
    Object.new .object (Object.new .int 1) = Object.new .int 1 ∧
    into_object .object (Object.new .str "a") = Object.new .str "a" ∧
    DynValue.vint 1 ≠ DynValue.vobj none :=
  ⟨(c1_flatten_law .int 1 (Object.new .str "a")).1,
   (c1_flatten_law .int 1 (Object.new .str "a")).2.1,
   (c1_flatten_law .int 1 (Object.new .str "a")).2.2 (by decide) (.vint 1) rfl none⟩

/-- C2 — Equality invariant: two handles are `==`-equal iff both are
empty, or both are non-empty, the stored runtime types are identical and
the underlying values are equal by that concrete type's own equality
(every concrete equality in the universe is symmetric, as the claim
assumes); in particular two non-empty handles of differing runtime types
are always unequal. -/
theorem c2_equality_invariant (a b : Object) :
    (beqObject a b = true ↔
      (a.val = none ∧ b.val = none) ∨
      (∃ x y, a.val = some x ∧ b.val = some y ∧
        x.tyOf = y.tyOf ∧ concreteEq x y = true)) ∧
    (∀ x y, a.val = some x → b.val = some y → x.tyOf ≠ y.tyOf →
      beqObject a b = false) := by
  obtain ⟨av⟩ := a
  obtain ⟨bv⟩ := b
  cases av with
  | none =>
    cases bv with
    | none =>
      exact ⟨by simp [beqObject], fun x y hx => by cases hx⟩
    | some y =>
      refine ⟨?_, fun x y' hx => by cases hx⟩
      simp [beqObject]
  | some x =>
    cases bv with
    | none =>
      refine ⟨?_, fun x' y hx hy => by cases hy⟩
      simp [beqObject]
    | some y =>
      have hbeq : beqObject ⟨some x⟩ ⟨some y⟩ = dyn_eq x y := rfl
      refine ⟨?_, ?_⟩
      · rw [hbeq, dyn_eq_char, Bool.and_eq_true, decide_eq_true_eq]
        constructor
        · rintro ⟨hty, hce⟩
          exact Or.inr ⟨x, y, rfl, rfl, hty, hce⟩
        · rintro (⟨h1, -⟩ | ⟨x', y', hx', hy', hty, hce⟩)
          · cases h1
          · injection hx' with e1
            injection hy' with e2
            subst e1; subst e2
            exact ⟨hty, hce⟩
      · intro x' y' hx' hy' hty
        injection hx' with e1
        injection hy' with e2
        subst e1; subst e2
        rw [hbeq, dyn_eq_char]
        simp [hty]

/-- Witness for C2: a handle holding `1 : i32` and a handle holding a
string have differing runtime types and are unequal. -/
theorem c2_equality_invariant_witness :
    beqObject (Object.new .int 1) (Object.new .str "a") = false :=
  (c2_equality_invariant (Object.new .int 1) (Object.new .str "a")).2
    (.vint 1) (.vstr "a") rfl rfl (by decide)

/-- C3 counterexample: for `T = Object` the claim fails.  On a handle
holding `7 : i32`, the stored runtime type (`i32`) differs from the
requested `T = Object`, yet `take::<Object>()` returns `Some` (the whole
former handle, value preserved inside it), not `None`. -/
theorem c3_take_counterexample :
    (Object.new .int 7).val = some (DynValue.vint 7) ∧
    (DynValue.vint 7).tyOf ≠ Ty.object ∧
    (Object.take .object (Object.new .int 7)).1 = some (Object.new .int 7) :=
  ⟨rfl, by decide, rfl⟩

/-- C3 amended — Destructive take: `take::<T>()` always leaves the handle
empty afterwards (for every `T`, the handle type included), and for every
`T` other than the handle type `Object`, a runtime type mismatch returns
`None` while the original stored value is dropped with the emptied
handle rather than the handle being left unchanged. -/
theorem c3_destructive_take (t : Ty) (o : Object) :
    (Object.take t o).2 = Object.NONE ∧
    (t ≠ .object → ∀ x, o.val = some x → x.tyOf ≠ t →
      (Object.take t o).1 = none) := by
  refine ⟨rfl, ?_⟩
  intro ht x hx hty
  show from_object t o = none
  rw [from_object_ne_object t ht, hx]
  exact downcast_ne t x hty

/-- Witness for C3: a handle holding `7 : i32`; `take::<String>()` returns
`None` and the handle is left empty (the value `7` is lost). -/
theorem c3_destructive_take_witness :
    (Object.take .str (Object.new .int 7)).2 = Object.NONE ∧
    (Object.take .str (Object.new .int 7)).1 = none :=
  ⟨(c3_destructive_take .str (Object.new .int 7)).1,
   (c3_destructive_take .str (Object.new .int 7)).2 (by decide) (.vint 7) rfl
     (by decide)⟩

/-- C4 counterexample: for `x = Object::NONE` (a capability-satisfying
value of concrete type `Object`), `cloned::<Object>()` on
`Object::new(x)` returns `None`, not `Some` of a value equal to `x`. -/
theorem c4_round_trip_counterexample :
    Object.cloned .object (Object.new .object Object.NONE) = none :=
  rfl

/-- C4 amended — Round-trip, for every capability-satisfying value whose
concrete type `T` is not the handle type `Object`: `cloned::<T>()` on
`Object::new(x)` returns `Some x`, and for every type `U` other than `T`
and other than `Object`, `cloned::<U>()` on `Object::new(x)` returns
`None`. -/
theorem c4_round_trip (t : Ty) (x : t.denote) (ht : t ≠ .object) :
    Object.cloned t (Object.new t x) = some x ∧
    (∀ u : Ty, u ≠ t → u ≠ .object →
      Object.cloned u (Object.new t x) = none) := by
  have hnew : (Object.new t x).val = some (toDyn t x) := by
    cases t <;> first | exact absurd rfl ht | rfl
  refine ⟨?_, ?_⟩
  · show DynObjectLib.cloned t (Object.new t x) = some x
    rw [cloned_ne_object t ht, hnew]
    exact downcast_toDyn t x
  · intro u hut huo
    show DynObjectLib.cloned u (Object.new t x) = none
    rw [cloned_ne_object u huo, hnew]
    exact downcast_ne u (toDyn t x)
      (by rw [tyOf_toDyn]; exact fun h => hut h.symm)

/-- Witness for C4: `Object::new(5).cloned::<i32>()` is `Some 5` and
`Object::new(5).cloned::<String>()` is `None`. -/
theorem c4_round_trip_witness :
    Object.cloned .int (Object.new .int 5) = some 5 ∧
    Object.cloned .str (Object.new .int 5) = none :=
  ⟨(c4_round_trip .int 5 (by decide)).1,
   (c4_round_trip .int 5 (by decide)).2 .str (by decide) (by decide)⟩

/-- C5 — No-panic absence signaling: every fallible public operation
(`cloned`, `get_ref`, `get_mut`, `take`, `replace`, `equals`, and the
underlying `from_object` / `into_object` / `as_dyn_inner`), with every
`.unwrap()` in the `AsObject` blanket impl modelled as an explicit panic
outcome, never panics: each returns `ok` of the pure result, so failure is
signalled only by `None`/`false`; and `dyn_eq` answers `false` on a
runtime type mismatch rather than erroring. -/
theorem c5_no_panic :
    (∀ (t : Ty) (o : Object), clonedP t o = .ok (Object.cloned t o)) ∧
    (∀ (t : Ty) (o : Object), get_refP t o = .ok (Object.get_ref t o)) ∧
    (∀ (t : Ty) (o : Object), get_mutP t o = .ok (Object.get_mut t o)) ∧
    (∀ (t : Ty) (o : Object), from_objectP t o = .ok (from_object t o)) ∧
    (∀ (t : Ty) (v : t.denote), into_objectP t v = .ok (into_object t v)) ∧
    (∀ (t : Ty) (v : t.denote), as_dyn_innerP t v = .ok (as_dyn_inner t v)) ∧
    (∀ (t : Ty) (o : Object) (v : t.denote),
      equalsP t o v = .ok (Object.equals t o v)) ∧
    (∀ (t : Ty) (o : Object), takeP t o = .ok (Object.take t o)) ∧
    (∀ (a b : Ty) (o : Object) (v : a.denote),
      replaceP a b o v = .ok (Object.replace a b o v)) ∧
    (∀ x y : DynValue, x.tyOf ≠ y.tyOf → dyn_eq x y = false) := by
  refine ⟨?_, ?_, ?_, ?_, ?_, ?_, ?_, ?_, ?_, ?_⟩
  · intro t o; obtain ⟨ov⟩ := o; cases t <;> cases ov <;> rfl
  · intro t o; obtain ⟨ov⟩ := o; cases t <;> cases ov <;> rfl
  · intro t o; obtain ⟨ov⟩ := o; cases t <;> cases ov <;> rfl
  · intro t o; obtain ⟨ov⟩ := o; cases t <;> cases ov <;> rfl
  · intro t v; cases t <;> rfl
  · intro t v; cases t <;> rfl
  · intro t o v; obtain ⟨ov⟩ := o; cases t <;> cases ov <;> rfl
  · intro t o; obtain ⟨ov⟩ := o; cases t <;> cases ov <;> rfl
  · intro a b o v; obtain ⟨ov⟩ := o; cases a <;> cases b <;> cases ov <;> rfl
  · intro x y h; cases x <;> cases y <;>
      first | exact absurd rfl h | simp [dyn_eq]

/-- Witness for C5: `dyn_eq` on an `i32` and a `String` (mismatched
runtime types) is `false`, not a panic. -/
theorem c5_no_panic_witness :
    dyn_eq (DynValue.vint 1) (DynValue.vstr "a") = false :=
  c5_no_panic.2.2.2.2.2.2.2.2.2 (DynValue.vint 1) (DynValue.vstr "a")
    (by decide)

/-- C6 — Empty identity: `Object::NONE` is `is_none` and not `is_some`,
and `cloned::<T>()` on it is `None` for every `T` of the universe, the
handle type `Object` included. -/
theorem c6_empty_identity :
    Object.NONE.is_none = true ∧
    Object.NONE.is_some = false ∧
    (∀ t : Ty, Object.cloned t Object.NONE = none) := by
  refine ⟨rfl, rfl, ?_⟩
  intro t; cases t <;> rfl

/-- C7 — Unnameable law: `Object::unnameable()` is `is_some`; the
sentinel's `dyn_eq` answers `false` against every value (and every value's
`dyn_eq` answers `false` against the sentinel), so any two handles
produced by `unnameable()` — sentinel against sentinel included — are
unequal under `==`, and an unnameable handle is `==`-unequal to every
handle. -/
theorem c7_unnameable_law :
    Object.unnameable.is_some = true ∧
    beqObject Object.unnameable Object.unnameable = false ∧
    (∀ v : DynValue, dyn_eq .vunnameable v = false) ∧
    (∀ v : DynValue, dyn_eq v .vunnameable = false) ∧
    (∀ o : Object, beqObject Object.unnameable o = false) := by
  have h1 : ∀ v : DynValue, dyn_eq .vunnameable v = false := by
    intro v; cases v <;> simp [dyn_eq]
  have h2 : ∀ v : DynValue, dyn_eq v .vunnameable = false := by
    intro v; cases v <;> simp [dyn_eq]
  refine ⟨rfl, h1 .vunnameable, h1, h2, ?_⟩
  intro o; obtain ⟨ov⟩ := o
  cases ov with
  | none => rfl
  | some v => exact h1 v

/-- C8 — `or`/`or_else` semantics and laziness: on an empty handle, `or`
wraps the item and `or_else` wraps the result of invoking the producer
exactly once (the threaded producer state is transformed by exactly one
invocation); on a non-empty handle both return the handle unchanged and
the producer is never invoked (the result and the threaded state are
independent of it). -/
theorem c8_or_or_else {σ : Type} (t : Ty) (o : Object) (v : t.denote)
    (s : σ) (f : σ → t.denote × σ) (g : Unit → t.denote) :
    (o.is_none = true →
      Object.or t o v = Object.new t v ∧
      Object.or_else t o g = Object.new t (g ()) ∧
      Object.or_elseS t o s f = (Object.new t (f s).1, (f s).2)) ∧
    (o.is_none = false →
      Object.or t o v = o ∧
      Object.or_else t o g = o ∧
      Object.or_elseS t o s f = (o, s)) := by
  obtain ⟨ov⟩ := o
  cases ov with
  | none =>
    refine ⟨fun _ => ⟨rfl, rfl, rfl⟩, fun h => absurd h ?_⟩
    decide
  | some x =>
    refine ⟨fun h => absurd h ?_, fun _ => ⟨rfl, rfl, rfl⟩⟩
    simp [Object.is_none]

/-- Witness for C8: on `NONE` the producer (an invocation counter) runs
exactly once and its result is wrapped; on a non-empty handle the handle
is returned unchanged and the counter is untouched. -/
theorem c8_or_or_else_witness :
    Object.or .int Object.NONE 3 = Object.new .int 3 ∧
    Object.or_elseS .int Object.NONE (0 : Nat) (fun n => (5, n + 1)) =
      (Object.new .int 5, 1) ∧
    Object.or .int (Object.new .int 1) 3 = Object.new .int 1 ∧
    Object.or_elseS .int (Object.new .int 1) (0 : Nat) (fun n => (5, n + 1)) =
      (Object.new .int 1, 0) := by
  have h1 := (c8_or_or_else .int Object.NONE 3 (0 : Nat)
    (fun n => (5, n + 1)) (fun _ => 5)).1 rfl
  have h2 := (c8_or_or_else .int (Object.new .int 1) 3 (0 : Nat)
    (fun n => (5, n + 1)) (fun _ => 5)).2 rfl
  exact ⟨h1.1, h1.2.2, h2.1, h2.2.2⟩

/-- C9 — Wrapping does not guarantee non-emptiness: `Object::new` applied
to the empty handle yields an empty handle, `set` with the empty handle
leaves the handle empty, and `into_object` returns the empty handle
unchanged: the self-type short-circuit returns the argument handle rather
than boxing it. -/
theorem c9_wrap_empty (h : Object) :
    (Object.new .object Object.NONE).is_none = true ∧
    (Object.set .object h Object.NONE).is_none = true ∧
    into_object .object Object.NONE = Object.NONE :=
  ⟨rfl, rfl, rfl⟩

/-- C10 — Handle equality is not reflexive: for `x = Object::unnameable()`,
`x == x` is `false` even for the very same instance, so the derived
`PartialEq` on `Object` is not a reflexive relation. -/
theorem c10_eq_not_reflexive :
    beqObject Object.unnameable Object.unnameable = false ∧
    ¬ (∀ o : Object, beqObject o o = true) := by
  have h : beqObject Object.unnameable Object.unnameable = false := by
    show dyn_eq .vunnameable .vunnameable = false
    simp [dyn_eq]
  refine ⟨h, fun hall => ?_⟩
  have hfalse := hall Object.unnameable
  rw [h] at hfalse
  exact Bool.noConfusion hfalse

end DynObjectLib
